import Mathlib

/-!
Verification of the Sonarr integration glue code
(`homeassistant/components/sonarr/coordinator.py` and
`homeassistant/components/sonarr/sensor.py`).

The Python modules are shallowly embedded:
* Python numbers appearing in true divisions are modelled as `ℚ`;
  byte counts are modelled as `ℤ`.
* A Python `dict` built by keyed assignment is modelled as its lookup
  function `String → Option String` (no claim depends on iteration order).
* Python exceptions are modelled with `Except` and the `PyErr` type.
* Name/attribute resolution failures that the source actually contains
  (a module-level name that is never imported, a method that does not
  exist on the receiver) are modelled by membership tests in the explicit
  lists of names that the source file does bind; those lists are
  transcribed from the import section and the class bodies of the source.
* External collaborators (the Sonarr API client, `homeassistant.util.dt`,
  `datetime.isoformat`) are abstract parameters; only what the repository
  code computes from them is modelled concretely.
-/

/-- Python exceptions relevant to this code. `sonarrError` stands for the
client library's `SonarrError`; the others are raised by the interpreter
or by the coordinator itself. -/
inductive PyErr where
  | nameError (name : String)
  | attributeError (typeName attr : String)
  | updateFailed (msg : String)
  | sonarrError (msg : String)
  | zeroDivisionError
deriving DecidableEq

/-- Round a rational to the nearest integer, ties to even: the rounding
used by Python's fixed-point string formatting. -/
def roundHalfToEven (x : ℚ) : ℤ :=
  let n := ⌊x⌋
  let r := x - (n : ℚ)
  if r < 1 / 2 then n
  else if 1 / 2 < r then n + 1
  else if n % 2 = 0 then n else n + 1

/-- Render a natural number below 100 with two digits. -/
def twoDigitString (n : ℕ) : String :=
  (if n < 10 then "0" else "") ++ toString n

/-- Model of the Python format specifier `:.2f`: round to hundredths
(ties to even) and print with exactly two decimal places. -/
def fmt2 (x : ℚ) : String :=
  let c := roundHalfToEven (x * 100)
  if c < 0 then
    "-" ++ toString (c.natAbs / 100) ++ "." ++ twoDigitString (c.natAbs % 100)
  else
    toString (c.toNat / 100) ++ "." ++ twoDigitString (c.toNat % 100)

/-- The empty Python dict (`attrs = {}`), as a lookup function. -/
def pyDictEmpty : String → Option String := fun _ => none

/-- Python keyed assignment `d[k] = v`, as a transformation of the lookup
function. -/
def pyDictInsert (d : String → Option String) (k v : String) :
    String → Option String :=
  fun q => if q = k then some v else d q

/-- `homeassistant.const.DATA_GIGABYTES`, the unit string of the disk
space sensor. -/
def DATA_GIGABYTES : String := "GB"

/-- A disk of the Sonarr application status (`disk.path`, `disk.free`,
`disk.total`, the latter two in bytes). -/
structure Disk where
  path : String
  free : ℤ
  total : ℤ
deriving DecidableEq

/-- The Sonarr application object, as far as the sensors read it. -/
structure SonarrApp where
  disks : List Disk
deriving DecidableEq

/-- A series (`series.title`). -/
structure Series where
  title : String
deriving DecidableEq

/-- An episode (`episode.series`, `episode.identifier`). -/
structure Episode where
  series : Series
  identifier : String
deriving DecidableEq

/-- A download-queue item (`item.size`, `item.size_remaining`,
`item.episode`). Sizes are modelled as rationals because the code
divides them with Python's true division. -/
structure QueueItem where
  size : ℚ
  size_remaining : ℚ
  episode : Episode
deriving DecidableEq

/-- A command item (`command.name`, `command.state`). -/
structure CommandItem where
  name : String
  state : String
deriving DecidableEq

/-- A series item of the `series` datapoint (`item.series`,
`item.downloaded`, `item.episodes`). -/
structure SeriesItem where
  series : Series
  downloaded : ℤ
  episodes : ℤ
deriving DecidableEq

/-- The coordinator's `data` dictionary as the sensors read it: for each
datapoint key, `.get(key)` either finds the fetched collection or
returns `None`. -/
structure CoordinatorData where
  commands : Option (List CommandItem)
  queue : Option (List QueueItem)
  series : Option (List SeriesItem)
  upcoming : Option (List Episode)

/-- The module-level names bound in `coordinator.py`: its imports and its
module-level definitions, transcribed from the source file. `asyncio`
is used at line 80 but does not appear among them. -/
def coordinatorModuleNames : List String :=
  ["annotations", "timedelta", "logging", "Sonarr", "SonarrError",
   "HomeAssistant", "async_get_clientsession", "DataUpdateCoordinator",
   "UpdateFailed", "dt_util", "DOMAIN", "SCAN_INTERVAL", "_LOGGER",
   "SonarrDataUpdateCoordinator"]

/-- The attributes of Python's built-in `list` type that are methods
usable as `xs.m(...)` (from the CPython documentation of `list`).
`enable_datapoint` calls `self.datapoints.push(...)`, and `push` does
not appear among them. -/
def pyListMethods : List String :=
  ["append", "clear", "copy", "count", "extend", "index", "insert",
   "pop", "remove", "reverse", "sort"]

/-- The attributes defined on `SonarrDataUpdateCoordinator` by
`coordinator.py`: its annotated instance attributes and its methods.
`sensor.py` calls `coordinator.disable_datapoint(...)`, and
`disable_datapoint` does not appear among them. -/
def coordinatorAttributes : List String :=
  ["sonarr", "datapoints", "upcoming_days", "__init__",
   "enable_datapoint", "get_datapoint", "_async_update_data"]

/-- The instance attributes assigned by `SonarrSensor.__init__` in
`sensor.py` (the disk space sensor adds none of its own).
`SonarrDiskspaceSensor.native_value` reads `self._total_free`, and
`_total_free` does not appear among them (nor anywhere else in the
source). -/
def sonarrSensorInstanceAttributes : List String :=
  ["_key", "_datapoint", "_attr_name", "_attr_icon", "_attr_unique_id",
   "_attr_native_unit_of_measurement",
   "_attr_entity_registry_enabled_default", "last_update_success"]

/-- `SonarrDataUpdateCoordinator.__init__` initialises the datapoint
list to `["app"]`. -/
def initialDatapoints : List String := ["app"]

/-- `SonarrDataUpdateCoordinator.enable_datapoint`: executes
`self.datapoints.push(datapoint)`. The attribute lookup `push` on a
Python list is resolved first; only if it succeeded would the list be
extended. Returns the resulting datapoint list together with the raised
exception, if any. -/
def enable_datapoint (datapoints : List String) (datapoint : String) :
    List String × Option PyErr :=
  if "push" ∈ pyListMethods then (datapoints ++ [datapoint], none)
  else (datapoints, some (.attributeError "list" "push"))

/-- The call `self.coordinator.disable_datapoint(self._datapoint)` made
by `SonarrSensor.async_will_remove_from_hass`: the attribute lookup
`disable_datapoint` on the coordinator is resolved first; no such method
exists in the source, so no body is available to run. -/
def disable_datapoint (datapoints : List String) (_datapoint : String) :
    List String × Option PyErr :=
  if "disable_datapoint" ∈ coordinatorAttributes then (datapoints, none)
  else (datapoints, some (.attributeError "SonarrDataUpdateCoordinator"
    "disable_datapoint"))

/-- `SonarrSensor.async_added_to_hass`, restricted to its effect on the
coordinator's datapoint list: when the sensor declares a datapoint it
calls `enable_datapoint` (and then would request a refresh). -/
def async_added_to_hass (sensorDatapoint : Option String)
    (datapoints : List String) : List String × Option PyErr :=
  match sensorDatapoint with
  | some d => enable_datapoint datapoints d
  | none => (datapoints, none)

/-- `SonarrSensor.async_will_remove_from_hass`, restricted to its effect
on the coordinator's datapoint list. -/
def async_will_remove_from_hass (sensorDatapoint : Option String)
    (datapoints : List String) : List String × Option PyErr :=
  match sensorDatapoint with
  | some d => disable_datapoint datapoints d
  | none => (datapoints, none)

/-- Any interleaving of sensor additions (`true`) and removals
(`false`), applied to a datapoint list through the two lifecycle hooks
above. -/
def runLifecycle (datapoints : List String)
    (ops : List (Option String × Bool)) : List String :=
  ops.foldl
    (fun dps op =>
      if op.2 then (async_added_to_hass op.1 dps).1
      else (async_will_remove_from_hass op.1 dps).1)
    datapoints

/-- `SonarrDataUpdateCoordinator._async_update_data`: evaluates
`dict(zip(self.datapoints, await asyncio.gather(*(self.get_datapoint(d)
for d in self.datapoints))))` inside `try ... except SonarrError`.
Python resolves the callee `asyncio.gather` before evaluating its
arguments, so the name `asyncio` is looked up among the module's bound
names before any datapoint is fetched; `NameError` is not a
`SonarrError`, so the `except` clause would not catch it. The fetches
themselves are abstracted by `fetch`, which returns either a result or
the message of a raised `SonarrError`. -/
def asyncUpdateData {α : Type} (fetch : String → Except String α)
    (datapoints : List String) : Except PyErr (List (String × α)) :=
  if "asyncio" ∈ coordinatorModuleNames then
    match datapoints.mapM fetch with
    | .ok results => .ok (datapoints.zip results)
    | .error e => .error (.updateFailed ("Invalid response from API: " ++ e))
  else
    .error (.nameError "asyncio")

/-- A Python `datetime`: the instant it denotes, as microseconds since
the epoch, together with the UTC offset (in microseconds) of its
representation. The wall-clock reading is `us + utcOffset`. -/
structure PyDateTime where
  us : ℤ
  utcOffset : ℤ
deriving DecidableEq

/-- `.replace(microsecond=0)`: zero the microsecond component of the
wall-clock reading, keeping the representation offset. -/
def replaceMicrosecondZero (t : PyDateTime) : PyDateTime :=
  let wall := t.us + t.utcOffset
  { us := (wall - wall.emod 1000000) - t.utcOffset, utcOffset := t.utcOffset }

/-- Microseconds in one day. -/
def usPerDay : ℤ := 86400000000

/-- Adding `timedelta(days=n)` to an aware datetime: the instant moves
by exactly `n` days, the representation offset is unchanged. -/
def addDays (t : PyDateTime) (n : ℤ) : PyDateTime :=
  { t with us := t.us + n * usPerDay }

/-- The external date utilities `get_datapoint` calls:
`dt_util.start_of_local_day()` (a value), `dt_util.as_utc` and
`datetime.isoformat` (functions). They live outside this repository and
are abstract here. -/
structure DtEnv where
  startOfLocalDay : PyDateTime
  asUtc : PyDateTime → PyDateTime
  isoformat : PyDateTime → String

/-- The client-library call performed by one `get_datapoint` invocation:
`sonarr.update`, `sonarr.commands`, `sonarr.queue`, `sonarr.series`,
`sonarr.upcoming(start=..., end=...)` or `sonarr.wanted`. -/
inductive SonarrCall where
  | update
  | commands
  | queue
  | series
  | upcoming (startArg : String) (endArg : String)
  | wanted
deriving DecidableEq

/-- `SonarrDataUpdateCoordinator.get_datapoint`, abstracted to the
client-library call it performs: the if/elif chain on the datapoint
name, with the `upcoming` branch computing its window from
`start_of_local_day`, `replace(microsecond=0)`, `as_utc` and
`timedelta(days=self.upcoming_days)`, and `None` returned for an
unknown name. -/
def get_datapoint (env : DtEnv) (upcoming_days : ℤ) (datapoint : String) :
    Option SonarrCall :=
  if datapoint = "app" then some .update
  else if datapoint = "commands" then some .commands
  else if datapoint = "queue" then some .queue
  else if datapoint = "series" then some .series
  else if datapoint = "upcoming" then
    let localDay := replaceMicrosecondZero env.startOfLocalDay
    let start := env.asUtc localDay
    let stop := addDays start upcoming_days
    some (.upcoming (env.isoformat start) (env.isoformat stop))
  else if datapoint = "wanted" then some .wanted
  else none

/-- `SonarrCommandsSensor.native_value`: `len` of the `commands` entry
when `.get("commands")` is not `None`, else `None`. -/
def SonarrCommandsSensor.native_value (data : CoordinatorData) : Option ℕ :=
  match data.commands with
  | some commands => some commands.length
  | none => none

/-- `SonarrQueueSensor.native_value`: `len` of the `queue` entry when
`.get("queue")` is not `None`, else `None`. -/
def SonarrQueueSensor.native_value (data : CoordinatorData) : Option ℕ :=
  match data.queue with
  | some queue => some queue.length
  | none => none

/-- `SonarrSeriesSensor.native_value`: `len` of the `series` entry when
`.get("series")` is not `None`, else `None`. -/
def SonarrSeriesSensor.native_value (data : CoordinatorData) : Option ℕ :=
  match data.series with
  | some series => some series.length
  | none => none

/-- `SonarrUpcomingSensor.native_value`: `len` of the `upcoming` entry
when `.get("upcoming")` is not `None`, else `None`. -/
def SonarrUpcomingSensor.native_value (data : CoordinatorData) : Option ℕ :=
  match data.upcoming with
  | some upcoming => some upcoming.length
  | none => none

/-- The body of the disk loop of
`SonarrDiskspaceSensor.extra_state_attributes`: convert free and total
bytes to gigabytes, compute the usage percentage — `free / total`
raises `ZeroDivisionError` when the divisor `total` is zero — and store
`f"{free:.2f}/{total:.2f}{self.unit_of_measurement} ({usage:.2f}%)"`
under the disk's path. -/
def diskAttrStep (attrs : String → Option String) (disk : Disk) :
    Except PyErr (String → Option String) :=
  let free : ℚ := (disk.free : ℚ) / 1024 ^ 3
  let total : ℚ := (disk.total : ℚ) / 1024 ^ 3
  if total = 0 then Except.error PyErr.zeroDivisionError
  else
    let usage : ℚ := free / total * 100
    Except.ok (pyDictInsert attrs disk.path
      (fmt2 free ++ "/" ++ fmt2 total ++ DATA_GIGABYTES ++
        " (" ++ fmt2 usage ++ "%)"))

/-- `SonarrDiskspaceSensor.extra_state_attributes`: run the disk loop
over the application's disks, starting from the empty dict; the first
disk with zero total bytes makes the property raise
`ZeroDivisionError`, discarding the dict. -/
def SonarrDiskspaceSensor.extra_state_attributes (app : SonarrApp) :
    Except PyErr (String → Option String) :=
  app.disks.foldlM diskAttrStep pyDictEmpty

/-- `SonarrDiskspaceSensor.native_value`: sums the free bytes of all
disks into the local `total_free`, then evaluates
`self._total_free / 1024 ** 3`. The attribute lookup `_total_free` on
the sensor instance is resolved before the division; were it bound to
the computed sum, the formatted result would be returned. -/
def SonarrDiskspaceSensor.native_value (app : SonarrApp) :
    Except PyErr String :=
  let total_free : ℤ := (app.disks.map Disk.free).sum
  if "_total_free" ∈ sonarrSensorInstanceAttributes then
    .ok (fmt2 ((total_free : ℚ) / 1024 ^ 3))
  else
    .error (.attributeError "SonarrDiskspaceSensor" "_total_free")

/-- `SonarrQueueSensor.extra_state_attributes`: when `.get("queue")` is
not `None`, for each item compute the remaining ratio (1 when the size
is 0, else `size_remaining / size`), turn it into a percent complete,
and store `f"{remaining_pct:.2f}%"` under
`f"{item.episode.series.title} {item.episode.identifier}"`. -/
def SonarrQueueSensor.extra_state_attributes (data : CoordinatorData) :
    String → Option String :=
  match data.queue with
  | some queue =>
      queue.foldl
        (fun attrs item =>
          let remaining : ℚ :=
            if item.size = 0 then 1 else item.size_remaining / item.size
          let remaining_pct : ℚ := 100 * (1 - remaining)
          let name :=
            item.episode.series.title ++ " " ++ item.episode.identifier
          pyDictInsert attrs name (fmt2 remaining_pct ++ "%"))
        pyDictEmpty
  | none => pyDictEmpty

/-- The key under which the disk space sensor stores a disk's attribute:
the disk's path. -/
def diskKeyString (disk : Disk) : String := disk.path

/-- The attribute string the disk space sensor computes for one disk
(the body of its loop, with the let-bindings substituted). -/
def diskValString (disk : Disk) : String :=
  fmt2 ((disk.free : ℚ) / 1024 ^ 3) ++ "/" ++
    fmt2 ((disk.total : ℚ) / 1024 ^ 3) ++ DATA_GIGABYTES ++
    " (" ++
    fmt2 (((disk.free : ℚ) / 1024 ^ 3) / ((disk.total : ℚ) / 1024 ^ 3) * 100) ++
    "%)"

/-- The key under which the queue sensor stores an item's attribute:
`f"{item.episode.series.title} {item.episode.identifier}"`. -/
def queueKeyString (item : QueueItem) : String :=
  item.episode.series.title ++ " " ++ item.episode.identifier

/-- The attribute string the queue sensor computes for one item (the
body of its loop, with the let-bindings substituted). -/
def queueValString (item : QueueItem) : String :=
  fmt2 (100 * (1 -
    (if item.size = 0 then 1 else item.size_remaining / item.size))) ++ "%"

/-- A concrete disk: 1 GiB free of 2 GiB total. -/
def sampleDisk : Disk := ⟨"/data", 1073741824, 2147483648⟩

/-- A concrete application status with a single disk. -/
def sampleApp : SonarrApp := ⟨[sampleDisk]⟩

/-- A concrete episode. -/
def sampleEpisode : Episode := ⟨⟨"The Example Show"⟩, "S01E01"⟩

/-- A concrete queue item, half downloaded. -/
def sampleQueueItem : QueueItem := ⟨2, 1, sampleEpisode⟩

/-- A concrete queue item whose reported size is zero. -/
def zeroSizeQueueItem : QueueItem := ⟨0, 5, ⟨⟨"Another Show"⟩, "S02E03"⟩⟩

/-- Coordinator data holding only the sample queue. -/
def sampleQueueData : CoordinatorData := ⟨none, some [sampleQueueItem], none, none⟩

/-- Coordinator data holding only the zero-size queue item. -/
def zeroSizeQueueData : CoordinatorData :=
  ⟨none, some [zeroSizeQueueItem], none, none⟩

lemma roundHalfToEven_zero : roundHalfToEven 0 = 0 := by
  simp [roundHalfToEven]

lemma fmt2_zero : fmt2 0 = "0.00" := by
  simp only [fmt2, zero_mul, roundHalfToEven_zero]
  norm_num
  rfl

lemma pyDictInsert_self (d : String → Option String) (k v : String) :
    pyDictInsert d k v k = some v := by
  simp [pyDictInsert]

lemma pyDictInsert_other (d : String → Option String) (k v q : String)
    (h : q ≠ k) : pyDictInsert d k v q = d q := by
  simp [pyDictInsert, h]

lemma foldl_pyDictInsert_of_notmem {α : Type} (key val : α → String) :
    ∀ (items : List α) (d : String → Option String) (k : String),
      k ∉ items.map key →
      items.foldl (fun d i => pyDictInsert d (key i) (val i)) d k = d k := by
  intro items
  induction items with
  | nil => intro d k _; rfl
  | cons x xs ih =>
      intro d k hk
      simp only [List.map_cons, List.mem_cons, not_or] at hk
      simp only [List.foldl_cons]
      rw [ih _ _ hk.2, pyDictInsert_other _ _ _ _ hk.1]

lemma foldl_pyDictInsert_get {α : Type} (key val : α → String) :
    ∀ (items : List α) (d : String → Option String) (it : α),
      it ∈ items → (items.map key).Nodup →
      items.foldl (fun d i => pyDictInsert d (key i) (val i)) d (key it) =
        some (val it) := by
  intro items
  induction items with
  | nil => intro d it h _; cases h
  | cons x xs ih =>
      intro d it hmem hnodup
      simp only [List.map_cons, List.nodup_cons] at hnodup
      simp only [List.foldl_cons]
      rcases List.mem_cons.mp hmem with h | h
      · subst h
        rw [foldl_pyDictInsert_of_notmem key val xs _ _ hnodup.1]
        exact pyDictInsert_self _ _ _
      · exact ih _ _ h hnodup.2

lemma diskAttrStep_ok (attrs : String → Option String) (disk : Disk)
    (h : disk.total ≠ 0) :
    diskAttrStep attrs disk =
      Except.ok (pyDictInsert attrs (diskKeyString disk)
        (diskValString disk)) := by
  have htq : ((disk.total : ℚ) / 1024 ^ 3) ≠ 0 := by
    apply div_ne_zero
    · exact_mod_cast h
    · norm_num
  simp only [diskAttrStep, if_neg htq]
  rfl

lemma diskspace_attrs_ok :
    ∀ (disks : List Disk) (acc : String → Option String),
      (∀ d ∈ disks, d.total ≠ 0) →
      List.foldlM diskAttrStep acc disks =
        Except.ok (disks.foldl
          (fun attrs disk => pyDictInsert attrs (diskKeyString disk)
            (diskValString disk))
          acc) := by
  intro disks
  induction disks with
  | nil => intro acc _; rfl
  | cons x xs ih =>
      intro acc h
      have hx : x.total ≠ 0 := h x (List.mem_cons_self x xs)
      rw [List.foldlM_cons, diskAttrStep_ok acc x hx, List.foldl_cons]
      exact ih (pyDictInsert acc (diskKeyString x) (diskValString x))
        (fun d hd => h d (List.mem_cons_of_mem x hd))

lemma queue_attrs_as_foldl (queue : List QueueItem)
    (data : CoordinatorData) (hq : data.queue = some queue) :
    SonarrQueueSensor.extra_state_attributes data =
      queue.foldl
        (fun attrs item => pyDictInsert attrs (queueKeyString item)
          (queueValString item))
        pyDictEmpty := by
  unfold SonarrQueueSensor.extra_state_attributes
  rw [hq]
  rfl

lemma runLifecycle_id (ops : List (Option String × Bool)) :
    ∀ dps : List String, runLifecycle dps ops = dps := by
  induction ops with
  | nil => intro dps; rfl
  | cons op ops ih =>
      intro dps
      have hstep :
          (if op.2 then (async_added_to_hass op.1 dps).1
            else (async_will_remove_from_hass op.1 dps).1) = dps := by
        rcases op with ⟨d, b⟩
        cases b <;> cases d <;> rfl
      simp only [runLifecycle, List.foldl_cons]
      rw [hstep]
      exact ih dps

/-- C1: the claim says every successful `_async_update_data` run returns
the dictionary zipping the datapoint names, in order, with their
`get_datapoint` results. The code cannot produce a successful run at
all: it evaluates `asyncio.gather`, and `asyncio` is never imported by
`coordinator.py`, so every call raises `NameError` before fetching
anything — for any fetch behaviour and any datapoint list. -/
theorem asyncUpdateData_never_succeeds {α : Type}
    (fetch : String → Except String α) (datapoints : List String) :
    asyncUpdateData fetch datapoints =
      Except.error (PyErr.nameError "asyncio") := rfl

/-- C2: the claim says `_async_update_data` raises `UpdateFailed`
exactly when a datapoint fetch raises `SonarrError`. In the code the
unresolved name `asyncio` raises `NameError` before any fetch happens,
and `NameError` is not caught by `except SonarrError`, so `UpdateFailed`
is never raised — even when a fetch would raise `SonarrError`. -/
theorem asyncUpdateData_no_update_failure {α : Type}
    (fetch : String → Except String α) (datapoints : List String)
    (_hfail : ∃ d ∈ datapoints, ∃ msg, fetch d = Except.error msg)
    (msg : String) :
    asyncUpdateData fetch datapoints ≠
      Except.error (PyErr.updateFailed msg) := by
  intro hcontra
  rw [show asyncUpdateData fetch datapoints =
    Except.error (PyErr.nameError "asyncio") from rfl] at hcontra
  exact PyErr.noConfusion (Except.error.inj hcontra)

/-- C2 witness: a run whose only fetch raises `SonarrError` (message
"timeout") still does not raise `UpdateFailed`. -/
theorem asyncUpdateData_no_update_failure_instance :
    (∃ d ∈ ["app"], ∃ msg,
      (fun _ : String => (Except.error "timeout" : Except String Unit)) d =
        Except.error msg) ∧
    asyncUpdateData (fun _ : String => (Except.error "timeout" : Except String Unit))
        ["app"] ≠
      Except.error (PyErr.updateFailed "Invalid response from API: timeout") :=
  ⟨⟨"app", by decide, "timeout", rfl⟩,
    asyncUpdateData_no_update_failure _ ["app"]
      ⟨"app", by decide, "timeout", rfl⟩ _⟩

/-- C3: for an application whose disks have distinct paths and nonzero
total bytes (with a zero-total disk the Python property raises
`ZeroDivisionError` and reports nothing), the disk space sensor's
`extra_state_attributes` succeeds and reports under each disk's path
the string combining the free and total gigabyte values, each to two
decimal places, with the usage percentage `free / total * 100` —
`free` and `total` being the free and total bytes converted to
gigabytes — again to two decimal places. -/
theorem diskspace_extra_state_attributes_usage (app : SonarrApp)
    (hnodup : (app.disks.map Disk.path).Nodup)
    (htotals : ∀ d ∈ app.disks, d.total ≠ 0)
    (disk : Disk) (hmem : disk ∈ app.disks) :
    (SonarrDiskspaceSensor.extra_state_attributes app).map
        (fun attrs => attrs disk.path) =
      Except.ok (some (fmt2 ((disk.free : ℚ) / 1024 ^ 3) ++ "/" ++
        fmt2 ((disk.total : ℚ) / 1024 ^ 3) ++ "GB" ++ " (" ++
        fmt2 (((disk.free : ℚ) / 1024 ^ 3) / ((disk.total : ℚ) / 1024 ^ 3) * 100)
        ++ "%)")) := by
  unfold SonarrDiskspaceSensor.extra_state_attributes
  rw [diskspace_attrs_ok app.disks pyDictEmpty htotals]
  exact congrArg Except.ok
    (foldl_pyDictInsert_get diskKeyString diskValString app.disks
      pyDictEmpty disk hmem hnodup)

/-- C3 witness: the sample disk (1 GiB free of 2 GiB). -/
theorem diskspace_extra_state_attributes_usage_instance :
    ((sampleApp.disks.map Disk.path).Nodup ∧
      (∀ d ∈ sampleApp.disks, d.total ≠ 0) ∧
      sampleDisk ∈ sampleApp.disks) ∧
    (SonarrDiskspaceSensor.extra_state_attributes sampleApp).map
        (fun attrs => attrs sampleDisk.path) =
      Except.ok (some (fmt2 ((sampleDisk.free : ℚ) / 1024 ^ 3) ++ "/" ++
        fmt2 ((sampleDisk.total : ℚ) / 1024 ^ 3) ++ "GB" ++ " (" ++
        fmt2 (((sampleDisk.free : ℚ) / 1024 ^ 3) /
          ((sampleDisk.total : ℚ) / 1024 ^ 3) * 100) ++ "%)")) :=
  ⟨⟨by decide, by decide, by decide⟩,
    diskspace_extra_state_attributes_usage sampleApp (by decide) (by decide)
      sampleDisk (by decide)⟩

/-- C4: for every item of the queue datapoint whose size is nonzero
(item keys distinct), the queue sensor's `extra_state_attributes`
reports, under the key formed from the series title and the episode
identifier, the percent complete `100 * (1 - size_remaining / size)`
formatted to two decimal places. -/
theorem queue_extra_state_attributes_pct (data : CoordinatorData)
    (queue : List QueueItem) (hq : data.queue = some queue)
    (hnodup : (queue.map queueKeyString).Nodup)
    (item : QueueItem) (hmem : item ∈ queue) (hsize : item.size ≠ 0) :
    SonarrQueueSensor.extra_state_attributes data
        (item.episode.series.title ++ " " ++ item.episode.identifier) =
      some (fmt2 (100 * (1 - item.size_remaining / item.size)) ++ "%") := by
  rw [queue_attrs_as_foldl queue data hq]
  have h := foldl_pyDictInsert_get queueKeyString queueValString queue
    pyDictEmpty item hmem hnodup
  rw [show item.episode.series.title ++ " " ++ item.episode.identifier =
    queueKeyString item from rfl, h]
  simp only [queueValString, if_neg hsize]

/-- C4 witness: the sample queue item (size 2, 1 remaining). -/
theorem queue_extra_state_attributes_pct_instance :
    ((([sampleQueueItem] : List QueueItem).map queueKeyString).Nodup ∧
      sampleQueueItem ∈ [sampleQueueItem] ∧ sampleQueueItem.size ≠ 0 ∧
      sampleQueueData.queue = some [sampleQueueItem]) ∧
    SonarrQueueSensor.extra_state_attributes sampleQueueData
        (sampleQueueItem.episode.series.title ++ " " ++
          sampleQueueItem.episode.identifier) =
      some (fmt2 (100 * (1 - sampleQueueItem.size_remaining /
        sampleQueueItem.size)) ++ "%") :=
  ⟨⟨by decide, List.mem_singleton.mpr rfl, by norm_num [sampleQueueItem], rfl⟩,
    queue_extra_state_attributes_pct sampleQueueData [sampleQueueItem] rfl
      (by decide) sampleQueueItem (List.mem_singleton.mpr rfl)
      (by norm_num [sampleQueueItem])⟩

/-- C5: the commands, queue, series and upcoming sensors' `native_value`
is the item count of the corresponding entry of the coordinator's data
dictionary when that entry is present and `None` when it is absent; it
is a pure function of that data. -/
theorem sensor_native_values_are_counts (data : CoordinatorData) :
    SonarrCommandsSensor.native_value data =
      data.commands.map List.length ∧
    SonarrQueueSensor.native_value data = data.queue.map List.length ∧
    SonarrSeriesSensor.native_value data = data.series.map List.length ∧
    SonarrUpcomingSensor.native_value data =
      data.upcoming.map List.length := by
  obtain ⟨c, q, s, u⟩ := data
  cases c <;> cases q <;> cases s <;> cases u <;> exact ⟨rfl, rfl, rfl, rfl⟩

/-- C6: the claim says the disk space sensor's `native_value` is the sum
of free bytes over all disks, converted to gigabytes and formatted to
two decimal places. The code sums the free bytes into the local
`total_free` but then divides `self._total_free`, an instance attribute
that is never assigned anywhere, so every evaluation raises
`AttributeError` instead of returning the formatted string. -/
theorem diskspace_native_value_attribute_error (app : SonarrApp) :
    SonarrDiskspaceSensor.native_value app =
      Except.error
        (PyErr.attributeError "SonarrDiskspaceSensor" "_total_free") := rfl

/-- C7: `get_datapoint` maps each of the six resource-collection names
to exactly one client-library call: "app" to `sonarr.update`,
"commands" to `sonarr.commands`, "queue" to `sonarr.queue`, "series" to
`sonarr.series`, "upcoming" to `sonarr.upcoming` and "wanted" to
`sonarr.wanted`. -/
theorem get_datapoint_call_mapping (env : DtEnv) (upcoming_days : ℤ) :
    get_datapoint env upcoming_days "app" = some SonarrCall.update ∧
    get_datapoint env upcoming_days "commands" = some SonarrCall.commands ∧
    get_datapoint env upcoming_days "queue" = some SonarrCall.queue ∧
    get_datapoint env upcoming_days "series" = some SonarrCall.series ∧
    (∃ s e, get_datapoint env upcoming_days "upcoming" =
      some (SonarrCall.upcoming s e)) ∧
    get_datapoint env upcoming_days "wanted" = some SonarrCall.wanted :=
  ⟨rfl, rfl, rfl, rfl, ⟨_, _, rfl⟩, rfl⟩

/-- C8: the datapoint list the coordinator fetches from is fixed:
`enable_datapoint` (called when a sensor is added) and the
`disable_datapoint` call (made when a sensor is removed) both raise —
`list` has no `push` method and the coordinator has no
`disable_datapoint` attribute — before mutating the list, so any
interleaving of sensor additions and removals leaves the initial
`["app"]` list, and hence the set fetched each update cycle,
unchanged. -/
theorem datapoints_list_fixed (sensorDatapoint : Option String)
    (datapoints : List String) (ops : List (Option String × Bool)) :
    (async_added_to_hass sensorDatapoint datapoints).1 = datapoints ∧
    (async_will_remove_from_hass sensorDatapoint datapoints).1 =
      datapoints ∧
    runLifecycle initialDatapoints ops = initialDatapoints := by
  refine ⟨?_, ?_, runLifecycle_id ops initialDatapoints⟩
  · cases sensorDatapoint <;> rfl
  · cases sensorDatapoint <;> rfl

/-- C9: for a queue item whose size is zero (item keys distinct), the
queue sensor's computation is still defined: the remaining ratio is
taken to be 1 and the reported attribute is "0.00%", with no division
performed. -/
theorem queue_extra_state_attributes_zero_size (data : CoordinatorData)
    (queue : List QueueItem) (hq : data.queue = some queue)
    (hnodup : (queue.map queueKeyString).Nodup)
    (item : QueueItem) (hmem : item ∈ queue) (hsize : item.size = 0) :
    SonarrQueueSensor.extra_state_attributes data (queueKeyString item) =
      some "0.00%" := by
  rw [queue_attrs_as_foldl queue data hq]
  rw [foldl_pyDictInsert_get queueKeyString queueValString queue
    pyDictEmpty item hmem hnodup]
  simp only [queueValString, if_pos hsize]
  rw [show (100 : ℚ) * (1 - 1) = 0 by norm_num, fmt2_zero]
  rfl

/-- C9 witness: the zero-size queue item. -/
theorem queue_extra_state_attributes_zero_size_instance :
    ((([zeroSizeQueueItem] : List QueueItem).map queueKeyString).Nodup ∧
      zeroSizeQueueItem ∈ [zeroSizeQueueItem] ∧
      zeroSizeQueueItem.size = 0 ∧
      zeroSizeQueueData.queue = some [zeroSizeQueueItem]) ∧
    SonarrQueueSensor.extra_state_attributes zeroSizeQueueData
        (queueKeyString zeroSizeQueueItem) = some "0.00%" :=
  ⟨⟨by decide, List.mem_singleton.mpr rfl, rfl, rfl⟩,
    queue_extra_state_attributes_zero_size zeroSizeQueueData
      [zeroSizeQueueItem] rfl (by decide) zeroSizeQueueItem
      (List.mem_singleton.mpr rfl) rfl⟩

/-- C10: `get_datapoint` on "upcoming" calls `sonarr.upcoming` with a
window of exactly `upcoming_days` days: the start is the start of the
current local day with its wall-clock microseconds zeroed and converted
to UTC by the external `as_utc`, the end is that start plus
`upcoming_days` days (the instants differ by exactly
`upcoming_days * 86400000000` microseconds), and both are passed
through `isoformat`. -/
theorem get_datapoint_upcoming_window (env : DtEnv) (upcoming_days : ℤ) :
    get_datapoint env upcoming_days "upcoming" =
      some (SonarrCall.upcoming
        (env.isoformat
          (env.asUtc (replaceMicrosecondZero env.startOfLocalDay)))
        (env.isoformat
          (addDays (env.asUtc (replaceMicrosecondZero env.startOfLocalDay))
            upcoming_days))) ∧
    (addDays (env.asUtc (replaceMicrosecondZero env.startOfLocalDay))
        upcoming_days).us -
      (env.asUtc (replaceMicrosecondZero env.startOfLocalDay)).us =
      upcoming_days * usPerDay := by
  constructor
  · rfl
  · simp [addDays]
